import Mathlib

/-!
Shallow embedding of the `eliza-library` plugin (`src/plugins/libgen/index.ts`):
the two action handlers `LIBRARY_SEARCH` and `LIBRARY_DOWNLOAD`.

Each handler is modelled as a deterministic function of
  * the inbound message text, and
  * an environment record carrying the values supplied by the external
    collaborators during the run: the `RAPID_API_KEY` configuration value,
    the result of the `generateObjectDeprecated` extractor call, the HTTP
    response returned by `fetch`, and the outcome of `JSON.parse` /
    `JSON.stringify` applied to the response body (the JSON codec is a
    platform facility, so its outcome on the body is an oracle field).

The handler produces an ordered trace of observable effects (callback
invocations, log lines, outbound fetches, extractor calls).  The `try`
body is modelled separately (`searchTryBody` / `downloadTryBody`) as a
trace plus an optional thrown error message; the handler wrapper appends
the `catch` block's log-and-apologise effects, mirroring lines 159-162 and
386-389 of the source.
-/

set_option autoImplicit false

/-- JavaScript string truthiness for an optional string value:
`undefined`/`null` and the empty string are falsy. -/
def truthy : Option String → Bool
  | none => false
  | some s => !(s == "")

/-- `RAPID_API_HOST` constant from the source (line 33). -/
def RAPID_API_HOST : String := "annas-archive-api.p.rapidapi.com"

/-- One observable effect of a handler run. -/
inductive Effect where
  | callback (text : String)
  | logMsg (text : String)
  | logError (text : String)
  | fetchGet (url : String)
  | extractorCall (template : String)
  deriving DecidableEq

/-- An HTTP response as consumed by the handlers: `ok`, `status`, and the
body read as text (`await response.text()`). -/
structure HttpResponse where
  ok : Bool
  status : Nat
  bodyText : String

/-- Lowercase-hexadecimal character class of the regex `/[a-f0-9]{32}/`
(source line 330). -/
def isHexLower (c : Char) : Bool :=
  (('a' ≤ c && c ≤ 'f') || ('0' ≤ c && c ≤ '9'))

/-- Try to match `[a-f0-9]{32}` at the head of the character list: succeeds
exactly when the first 32 characters exist and are all lowercase hex. -/
def hexWindow32 (cs : List Char) : Option (List Char) :=
  if (cs.take 32).length == 32 && (cs.take 32).all isHexLower then
    some (cs.take 32)
  else
    none

/-- Leftmost match of `[a-f0-9]{32}`: slide the window start left to right,
as the JavaScript regex engine does for `String.prototype.match` with a
non-global pattern. -/
def findHash32Aux : List Char → Option (List Char)
  | [] => none
  | c :: rest =>
    match hexWindow32 (c :: rest) with
    | some w => some w
    | none => findHash32Aux rest

/-- `text.match(/[a-f0-9]{32}/)?.[0]` from source line 330. -/
def findHash32 (s : String) : Option String :=
  (findHash32Aux s.data).map fun cs => String.mk cs

/-- The input text contains a 32-character lowercase-hexadecimal substring. -/
def containsHex32 (s : String) : Prop :=
  ∃ p m suf : List Char,
    s.data = p ++ m ++ suf ∧ m.length = 32 ∧ m.all isHexLower = true

/-- One book record of the search response (`AnnaArchiveBook`, lines 14-25).
Fields that the renderer guards with a truthiness test (`author`, `year`,
`genre`) are optional; fields it interpolates unconditionally are plain
strings. -/
structure AnnaArchiveBook where
  title : String
  author : Option String
  md5 : String
  size : String
  genre : Option String
  format : String
  year : Option String

/-- Parsed search response (`AnnaArchiveResponse`, lines 27-30); `books`
is optional because the handler guards `!data.books`. -/
structure AnnaArchiveResponse where
  total : Int
  books : Option (List AnnaArchiveBook)

/-- One formatted book entry (source lines 150-154). -/
def renderBook (b : AnnaArchiveBook) : String :=
  "\"" ++ b.title ++ "\"" ++
    (if truthy b.author then " by " ++ b.author.getD "" else "") ++
    (if truthy b.year then " (" ++ b.year.getD "" ++ ")" else "") ++ "\n" ++
  "Format: " ++ b.format ++ ", Size: " ++ b.size ++ ", Genre: " ++
    (if truthy b.genre then b.genre.getD "" else "Unknown") ++ "\n" ++
  "MD5: " ++ b.md5

/-- The full success callback text of the search handler (lines 156-158). -/
def renderSearchResults (total : Int) (books : List AnnaArchiveBook) : String :=
  "Found " ++ toString total ++ " books. Here are the top " ++
    toString books.length ++ " results:\n\n" ++
  String.intercalate "\n\n" (books.map renderBook) ++
  "\n\nTo download a book, ask me using its MD5 hash."

/-- The fixed no-results message (line 146). -/
def noResultsText : String :=
  "No results found. Try modifying your search terms or using fewer filters."

/-- The configuration-error message (lines 83 and 318). -/
def configErrorText : String := "Error: RAPID_API_KEY is not configured"

/-- Hex digit in lowercase, for percent-encoding. -/
def hexDigitChar (n : Nat) : Char :=
  if n < 10 then Char.ofNat (48 + n) else Char.ofNat (87 + (n - 10))

/-- Two-digit uppercase hex of a byte, for percent-encoding. -/
def byteHexUpper (n : Nat) : String :=
  let hi := n / 16
  let lo := n % 16
  let d : Nat → Char := fun k =>
    if k < 10 then Char.ofNat (48 + k) else Char.ofNat (55 + (k - 10))
  String.mk [d hi, d lo]

/-- `application/x-www-form-urlencoded` encoding of one character, as
`URLSearchParams.toString` performs it: unreserved characters kept, the
space becomes `+`, everything else percent-encodes its UTF-8 bytes. -/
def formEncodeChar (c : Char) : String :=
  if c.isAlphanum || c == '-' || c == '_' || c == '.' || c == '*' then
    String.singleton c
  else if c == ' ' then "+"
  else
    String.join (((String.singleton c).toUTF8.toList).map
      fun b => "%" ++ byteHexUpper b.toNat)

/-- `URLSearchParams` form encoding of a whole value. -/
def formEncode (s : String) : String :=
  String.join (s.data.map formEncodeChar)

/-- The search URL built on lines 111-117:
`https://<host>/search?q=<term>&limit=10&sort=mostRelevant`. -/
def searchUrl (term : String) : String :=
  "https://" ++ RAPID_API_HOST ++ "/search?q=" ++ formEncode term ++
    "&limit=10&sort=mostRelevant"

/-- The download URL built on line 353: `https://<host>/download?md5=<hash>`. -/
def downloadUrl (md5 : String) : String :=
  "https://" ++ RAPID_API_HOST ++ "/download?md5=" ++ md5

/-- Result of the search-path extractor call (`generateObjectDeprecated`
with `SEARCH_TEMPLATE`); `searchTerm` is optional because the handler
guards `!content?.searchTerm`. -/
structure SearchExtraction where
  searchTerm : Option String

/-- Result of the download-path extractor call (`DOWNLOAD_TEMPLATE`). -/
structure DownloadExtraction where
  md5 : Option String
  title : String
  author : String

/-- Environment of one `LIBRARY_SEARCH.handler` run. `parsed` is the
outcome of `JSON.parse` on `response.bodyText` (`Except.error` carries the
parse exception's message); `stringified` is `JSON.stringify` of the
parsed data, used only in the API-error message. -/
structure SearchEnv where
  apiKey : Option String
  extraction : Option SearchExtraction
  response : HttpResponse
  parsed : Except String AnnaArchiveResponse
  stringified : String

/-- Truthy `content?.searchTerm` of the extractor result, i.e. the value
the guard on line 105 lets through. -/
def searchTermOf : Option SearchExtraction → Option String
  | none => none
  | some c =>
    match c.searchTerm with
    | none => none
    | some t => if t == "" then none else some t

/-- The `try` block of `LIBRARY_SEARCH.handler` (lines 81-158): the effect
trace together with the thrown error message, when one is thrown. -/
def searchTryBody (env : SearchEnv) (_messageText : String) :
    List Effect × Option String :=
  if truthy env.apiKey then
    let e0 : List Effect := [Effect.extractorCall "SEARCH_TEMPLATE"]
    match searchTermOf env.extraction with
    | none => (e0, some "No search term found in response")
    | some term =>
      let url := searchUrl term
      let e1 := e0 ++ [Effect.logMsg ("Searching for: " ++ term),
                       Effect.logMsg ("Search URL: " ++ url),
                       Effect.fetchGet url]
      match env.parsed with
      | Except.error emsg =>
        (e1 ++ [Effect.logError ("Failed to parse response: " ++ env.response.bodyText)],
         some ("Failed to parse API response: " ++ emsg))
      | Except.ok data =>
        if env.response.ok then
          let e2 := e1 ++ [Effect.logMsg "Search results"]
          match data.books with
          | none => (e2 ++ [Effect.callback noResultsText], none)
          | some bs =>
            if bs.isEmpty then
              (e2 ++ [Effect.callback noResultsText], none)
            else
              (e2 ++ [Effect.callback (renderSearchResults data.total bs)], none)
        else
          (e1 ++ [Effect.logError "API Error Response"],
           some ("API request failed with status " ++ toString env.response.status ++
                 ": " ++ env.stringified))
  else
    ([Effect.callback configErrorText], none)

/-- `LIBRARY_SEARCH.handler` with its `catch` block (lines 159-162): on a
thrown error, log it and deliver the apology callback; the handler itself
always returns a trace. -/
def searchHandler (env : SearchEnv) (messageText : String) : List Effect :=
  match searchTryBody env messageText with
  | (tr, none) => tr
  | (tr, some msg) =>
    tr ++ [Effect.logError ("Library search error: " ++ msg),
           Effect.callback ("Sorry, I\x27m having trouble with the search: " ++ msg)]

/-- Environment of one `LIBRARY_DOWNLOAD.handler` run; fields as in
`SearchEnv`, with the download endpoint's parsed body being a JSON array
of URL strings (optional because the handler guards `!links`). -/
structure DownloadEnv where
  apiKey : Option String
  extraction : Option DownloadExtraction
  response : HttpResponse
  parsed : Except String (Option (List String))
  stringified : String

/-- The numbered link list (line 382):
`links.map((link, index) => "<index+1>. <link>").join("\n")`. -/
def renderDownloadLinks (links : List String) : String :=
  String.intercalate "\n"
    (links.enum.map fun p => toString (p.1 + 1) ++ ". " ++ p.2)

/-- The fixed empty-link-list message (line 378). -/
def noLinksText : String := "No download links found for this book."

/-- The `try` block of `LIBRARY_DOWNLOAD.handler` (lines 316-385). -/
def downloadTryBody (env : DownloadEnv) (messageText : String) :
    List Effect × Option String :=
  if truthy env.apiKey then
    let resolved : List Effect × Except String String :=
      match findHash32 messageText with
      | some h => ([], Except.ok h)
      | none =>
        let e0 : List Effect := [Effect.extractorCall "DOWNLOAD_TEMPLATE"]
        match env.extraction with
        | none =>
          (e0, Except.error "Could not find the MD5 hash for the requested book")
        | some c =>
          match c.md5 with
          | none =>
            (e0, Except.error "Could not find the MD5 hash for the requested book")
          | some m =>
            if m == "" then
              (e0, Except.error "Could not find the MD5 hash for the requested book")
            else
              (e0 ++ [Effect.callback
                 ("Downloading \"" ++ c.title ++ "\" by " ++ c.author ++ "...")],
               Except.ok m)
    match resolved with
    | (e0, Except.error msg) => (e0, some msg)
    | (e0, Except.ok md5) =>
      let e1 := e0 ++ [Effect.fetchGet (downloadUrl md5)]
      match env.parsed with
      | Except.error emsg =>
        (e1 ++ [Effect.logError ("Failed to parse response: " ++ env.response.bodyText)],
         some ("Failed to parse API response: " ++ emsg))
      | Except.ok linksOpt =>
        if env.response.ok then
          match linksOpt with
          | none => (e1 ++ [Effect.callback noLinksText], none)
          | some links =>
            if links.isEmpty then
              (e1 ++ [Effect.callback noLinksText], none)
            else
              (e1 ++ [Effect.callback
                 ("Here are the download links for the book:\n\n" ++
                  renderDownloadLinks links)], none)
        else
          (e1 ++ [Effect.logError "API Error Response"],
           some ("API request failed with status " ++ toString env.response.status ++
                 ": " ++ env.stringified))
  else
    ([Effect.callback configErrorText], none)

/-- `LIBRARY_DOWNLOAD.handler` with its `catch` block (lines 386-389). -/
def downloadHandler (env : DownloadEnv) (messageText : String) : List Effect :=
  match downloadTryBody env messageText with
  | (tr, none) => tr
  | (tr, some msg) =>
    tr ++ [Effect.logError ("Library download error: " ++ msg),
           Effect.callback ("Sorry, I\x27m having trouble getting the download links: " ++ msg)]

/-- Count of extractor invocations in a trace. -/
def countExtractor (tr : List Effect) : Nat :=
  tr.countP fun e => match e with
    | Effect.extractorCall _ => true
    | _ => false

/-- Count of outbound network calls in a trace. -/
def countFetch (tr : List Effect) : Nat :=
  tr.countP fun e => match e with
    | Effect.fetchGet _ => true
    | _ => false

/-- The truthy `content?.md5` of the download extractor result (guard on
line 345): `none` when the result is missing, lacks `md5`, or has an empty
one. -/
def md5Of : Option DownloadExtraction → Option String
  | none => none
  | some c =>
    match c.md5 with
    | none => none
    | some m => if m == "" then none else some m

/-- A 32-character all-hex block at the head of the list is matched by the
window test. -/
theorem hexWindow32_of_head (m s : List Char) (hm : m.length = 32)
    (hall : m.all isHexLower = true) : hexWindow32 (m ++ s) = some m := by
  have ht : (m ++ s).take 32 = m := by
    rw [← hm]; exact List.take_left m s
  simp [hexWindow32, ht, hm, hall]

/-- What a successful window test returns: the first 32 characters, all
lowercase hex. -/
theorem hexWindow32_some (cs w : List Char) (h : hexWindow32 cs = some w) :
    w = cs.take 32 ∧ w.length = 32 ∧ w.all isHexLower = true := by
  unfold hexWindow32 at h
  split at h
  · next hc =>
    obtain ⟨h1, h2⟩ := Bool.and_eq_true_iff.mp hc
    obtain rfl : w = cs.take 32 := (Option.some.inj h).symm
    exact ⟨rfl, by simpa using h1, h2⟩
  · exact absurd h (by simp)

/-- Unfolding equation of `findHash32Aux` on a cons cell. -/
theorem findHash32Aux_cons (c : Char) (rest : List Char) :
    findHash32Aux (c :: rest) =
      match hexWindow32 (c :: rest) with
      | some w => some w
      | none => findHash32Aux rest := rfl

/-- Completeness of the regex scan: a 32-character hex block anywhere in
the list makes the scan succeed. -/
theorem findHash32Aux_isSome : ∀ (p m s : List Char), m.length = 32 →
    m.all isHexLower = true → (findHash32Aux (p ++ m ++ s)).isSome = true := by
  intro p
  induction p with
  | nil =>
    intro m s hm hall
    match m, hm with
    | c :: m', hm =>
      have hw : hexWindow32 (c :: (m' ++ s)) = some (c :: m') := by
        have := hexWindow32_of_head (c :: m') s hm hall
        rwa [List.cons_append] at this
      rw [List.nil_append, List.cons_append, findHash32Aux_cons, hw]
      rfl
  | cons c p' ih =>
    intro m s hm hall
    rw [List.cons_append, List.cons_append, findHash32Aux_cons]
    cases hw : hexWindow32 (c :: (p' ++ m ++ s)) with
    | some w => rfl
    | none => simpa using ih m s hm hall

/-- Soundness of the regex scan: a successful scan returns a 32-character
all-hex window of the list, at the leftmost position at which any such
window starts. -/
theorem findHash32Aux_sound : ∀ (cs w : List Char), findHash32Aux cs = some w →
    w.length = 32 ∧ w.all isHexLower = true ∧
    ∃ p s, cs = p ++ w ++ s ∧
      ∀ p' m' s', cs = p' ++ m' ++ s' → m'.length = 32 →
        m'.all isHexLower = true → p.length ≤ p'.length := by
  intro cs
  induction cs with
  | nil => intro w h; exact absurd h (by simp [findHash32Aux])
  | cons c rest ih =>
    intro w h
    rw [findHash32Aux_cons] at h
    cases hw : hexWindow32 (c :: rest) with
    | some w0 =>
      rw [hw] at h
      obtain rfl : w0 = w := Option.some.inj h
      obtain ⟨hweq, hwlen, hwall⟩ := hexWindow32_some _ _ hw
      refine ⟨hwlen, hwall, [], (c :: rest).drop 32, ?_, ?_⟩
      · rw [List.nil_append, hweq, List.take_append_drop]
      · intro p' m' s' _ _ _; exact Nat.zero_le _
    | none =>
      rw [hw] at h
      obtain ⟨hwlen, hwall, p, s, hps, hleft⟩ := ih w h
      refine ⟨hwlen, hwall, c :: p, s, by rw [List.cons_append, List.cons_append, hps], ?_⟩
      intro p' m' s' hdec hml hma
      cases p' with
      | nil =>
        exfalso
        rw [List.nil_append] at hdec
        have hm : hexWindow32 (c :: rest) = some m' := by
          rw [hdec]; exact hexWindow32_of_head _ _ hml hma
        rw [hm] at hw; exact Option.noConfusion hw
      | cons d q =>
        have hrest : rest = q ++ m' ++ s' := (List.cons.inj hdec).2
        have := hleft q m' s' hrest hml hma
        simpa using Nat.succ_le_succ this

/-- String-level completeness of `findHash32`. -/
theorem findHash32_isSome_of_contains (s : String) (h : containsHex32 s) :
    ∃ hstr : String, findHash32 s = some hstr := by
  obtain ⟨p, m, suf, hdec, hm, hall⟩ := h
  have := findHash32Aux_isSome p m suf hm hall
  rw [← hdec] at this
  obtain ⟨w, hw⟩ := Option.isSome_iff_exists.mp this
  exact ⟨String.mk w, by simp [findHash32, hw]⟩

/-- String-level soundness and leftmostness of `findHash32`. -/
theorem findHash32_sound (s hstr : String) (h : findHash32 s = some hstr) :
    hstr.data.length = 32 ∧ hstr.data.all isHexLower = true ∧
    ∃ p suf, s.data = p ++ hstr.data ++ suf ∧
      ∀ p' m' s', s.data = p' ++ m' ++ s' → m'.length = 32 →
        m'.all isHexLower = true → p.length ≤ p'.length := by
  unfold findHash32 at h
  cases hw : findHash32Aux s.data with
  | none => rw [hw] at h; exact absurd h (by simp)
  | some w =>
    rw [hw] at h
    obtain rfl : String.mk w = hstr := by simpa using h
    exact findHash32Aux_sound s.data w hw

/-- A text with no 32-character lowercase-hex substring has no match. -/
theorem findHash32_eq_none_of_not_contains (s : String) (h : ¬ containsHex32 s) :
    findHash32 s = none := by
  cases hf : findHash32 s with
  | none => rfl
  | some hstr =>
    exfalso
    obtain ⟨hlen, hall, p, suf, hdec, _⟩ := findHash32_sound s hstr hf
    exact h ⟨p, hstr.data, suf, hdec, hlen, hall⟩

/-- C1: every error thrown during execution of either handler (extraction
failure, parse failure, API failure, identifier-not-found) is caught at the
handler boundary: the handler logs it, invokes the callback with a short
apology string containing the error message, and returns normally (the
handler is a total function into traces, so no error propagates out). -/
theorem handler_catches_all_errors
    (senv : SearchEnv) (stext smsg : String)
    (denv : DownloadEnv) (dtext dmsg : String)
    (hs : (searchTryBody senv stext).2 = some smsg)
    (hd : (downloadTryBody denv dtext).2 = some dmsg) :
    searchHandler senv stext =
      (searchTryBody senv stext).1 ++
        [Effect.logError ("Library search error: " ++ smsg),
         Effect.callback ("Sorry, I\x27m having trouble with the search: " ++ smsg)] ∧
    downloadHandler denv dtext =
      (downloadTryBody denv dtext).1 ++
        [Effect.logError ("Library download error: " ++ dmsg),
         Effect.callback ("Sorry, I\x27m having trouble getting the download links: " ++ dmsg)] := by
  constructor
  · unfold searchHandler
    rcases h : searchTryBody senv stext with ⟨tr, e⟩
    rw [h] at hs
    cases e with
    | none => exact absurd hs (by simp)
    | some m => obtain rfl : m = smsg := by simpa using hs
                rfl
  · unfold downloadHandler
    rcases h : downloadTryBody denv dtext with ⟨tr, e⟩
    rw [h] at hd
    cases e with
    | none => exact absurd hd (by simp)
    | some m => obtain rfl : m = dmsg := by simpa using hd
                rfl

theorem handler_catches_all_errors_witness :
    (searchTryBody ⟨some "key", none, ⟨true, 200, "body"⟩, Except.error "boom", "x"⟩ "hi").2 =
      some "No search term found in response" ∧
    searchHandler ⟨some "key", none, ⟨true, 200, "body"⟩, Except.error "boom", "x"⟩ "hi" =
      (searchTryBody ⟨some "key", none, ⟨true, 200, "body"⟩, Except.error "boom", "x"⟩ "hi").1 ++
        [Effect.logError ("Library search error: " ++ "No search term found in response"),
         Effect.callback ("Sorry, I\x27m having trouble with the search: " ++ "No search term found in response")] :=
  ⟨by decide,
   (handler_catches_all_errors
      ⟨some "key", none, ⟨true, 200, "body"⟩, Except.error "boom", "x"⟩ "hi"
      "No search term found in response"
      ⟨some "key", none, ⟨true, 200, "body"⟩, Except.error "boom", "x"⟩ "hi"
      "Could not find the MD5 hash for the requested book"
      (by decide) (by decide)).1⟩

/-- C2: when the `RAPID_API_KEY` credential is not configured, both handlers
emit the configuration-error message via the callback and return at once:
the whole trace is that single callback, containing no network call and no
extractor call, so the check is the first action taken. -/
theorem config_guard_short_circuits
    (senv : SearchEnv) (stext : String) (denv : DownloadEnv) (dtext : String)
    (hs : truthy senv.apiKey = false) (hd : truthy denv.apiKey = false) :
    searchHandler senv stext = [Effect.callback configErrorText] ∧
    downloadHandler denv dtext = [Effect.callback configErrorText] ∧
    countFetch (searchHandler senv stext) = 0 ∧
    countExtractor (searchHandler senv stext) = 0 ∧
    countFetch (downloadHandler denv dtext) = 0 ∧
    countExtractor (downloadHandler denv dtext) = 0 := by
  have h1 : searchHandler senv stext = [Effect.callback configErrorText] := by
    simp [searchHandler, searchTryBody, hs]
  have h2 : downloadHandler denv dtext = [Effect.callback configErrorText] := by
    simp [downloadHandler, downloadTryBody, hd]
  refine ⟨h1, h2, ?_, ?_, ?_, ?_⟩ <;> simp [h1, h2, countFetch, countExtractor]

theorem config_guard_short_circuits_witness :
    truthy (none : Option String) = false ∧
    searchHandler ⟨none, none, ⟨true, 200, "b"⟩, Except.error "e", "x"⟩ "hi" =
      [Effect.callback configErrorText] :=
  ⟨by decide,
   (config_guard_short_circuits
      ⟨none, none, ⟨true, 200, "b"⟩, Except.error "e", "x"⟩ "hi"
      ⟨none, none, ⟨true, 200, "b"⟩, Except.error "e", "x"⟩ "hi"
      (by decide) (by decide)).1⟩

/-- On the direct-hash path the download handler performs no extractor
call and fetches the download URL of the matched hash. -/
theorem downloadHandler_direct (env : DownloadEnv) (text hstr : String)
    (hk : truthy env.apiKey = true) (hf : findHash32 text = some hstr) :
    countExtractor (downloadHandler env text) = 0 ∧
    Effect.fetchGet (downloadUrl hstr) ∈ downloadHandler env text := by
  unfold downloadHandler downloadTryBody
  rw [hk, hf]
  simp only [if_true]
  rcases hp : env.parsed with emsg | linksOpt
  · simp [countExtractor]
  · cases hok : env.response.ok
    · simp [countExtractor]
    · rcases linksOpt with _ | links
      · simp [countExtractor]
      · cases hl : links.isEmpty <;> simp [countExtractor, hl]

/-- C3: when the message text contains a 32-character lowercase hexadecimal
substring, the download handler uses such a substring (the regex match,
itself a 32-character lowercase-hex substring of the text) directly as the
content hash of the download request, and makes zero extractor calls. -/
theorem direct_hash_skips_extractor (env : DownloadEnv) (text : String)
    (hc : containsHex32 text) :
    ∃ hstr : String, findHash32 text = some hstr ∧
      (∃ p suf : List Char, text.data = p ++ hstr.data ++ suf ∧
         hstr.data.length = 32 ∧ hstr.data.all isHexLower = true) ∧
      countExtractor (downloadHandler env text) = 0 ∧
      (truthy env.apiKey = true →
        Effect.fetchGet (downloadUrl hstr) ∈ downloadHandler env text) := by
  obtain ⟨hstr, hf⟩ := findHash32_isSome_of_contains text hc
  obtain ⟨hlen, hall, p, suf, hdec, _⟩ := findHash32_sound text hstr hf
  cases hk : truthy env.apiKey with
  | true =>
    obtain ⟨hcount, hmem⟩ := downloadHandler_direct env text hstr hk hf
    exact ⟨hstr, hf, ⟨p, suf, hdec, hlen, hall⟩, hcount, fun _ => hmem⟩
  | false =>
    have htr : downloadHandler env text = [Effect.callback configErrorText] := by
      simp [downloadHandler, downloadTryBody, hk]
    refine ⟨hstr, hf, ⟨p, suf, hdec, hlen, hall⟩, by simp [htr, countExtractor], ?_⟩
    intro hcontra
    exact absurd hcontra (by simp)

theorem direct_hash_skips_extractor_witness :
    containsHex32 "Download book with MD5 5b723c172fc4c8a77f476e7016ad3945" ∧
    (∃ hstr : String,
      findHash32 "Download book with MD5 5b723c172fc4c8a77f476e7016ad3945" = some hstr ∧
      (∃ p suf : List Char,
         ("Download book with MD5 5b723c172fc4c8a77f476e7016ad3945" : String).data =
           p ++ hstr.data ++ suf ∧
         hstr.data.length = 32 ∧ hstr.data.all isHexLower = true) ∧
      countExtractor (downloadHandler
        ⟨some "key", none, ⟨true, 200, "b"⟩, Except.ok (some ["http://a"]), "x"⟩
        "Download book with MD5 5b723c172fc4c8a77f476e7016ad3945") = 0 ∧
      (truthy (⟨some "key", none, ⟨true, 200, "b"⟩, Except.ok (some ["http://a"]), "x"⟩ :
          DownloadEnv).apiKey = true →
        Effect.fetchGet (downloadUrl hstr) ∈ downloadHandler
          ⟨some "key", none, ⟨true, 200, "b"⟩, Except.ok (some ["http://a"]), "x"⟩
          "Download book with MD5 5b723c172fc4c8a77f476e7016ad3945")) :=
  have hc : containsHex32 "Download book with MD5 5b723c172fc4c8a77f476e7016ad3945" :=
    ⟨("Download book with MD5 " : String).data,
     ("5b723c172fc4c8a77f476e7016ad3945" : String).data, [],
     by decide, by decide, by decide⟩
  ⟨hc, direct_hash_skips_extractor
    ⟨some "key", none, ⟨true, 200, "b"⟩, Except.ok (some ["http://a"]), "x"⟩
    "Download book with MD5 5b723c172fc4c8a77f476e7016ad3945" hc⟩

/-- On the extractor path (configured key, no direct hash) the download
handler performs exactly one extractor call, in every branch. -/
theorem downloadHandler_extractor_once (env : DownloadEnv) (text : String)
    (hk : truthy env.apiKey = true) (hf : findHash32 text = none) :
    countExtractor (downloadHandler env text) = 1 := by
  unfold downloadHandler downloadTryBody
  rw [hk, hf]
  simp only [if_true]
  rcases he : env.extraction with _ | c
  · simp [countExtractor]
  · rcases hm : c.md5 with _ | m
    · simp [hm, countExtractor]
    · simp only [hm]
      cases hme : (m == "")
      · simp only [hme, Bool.false_eq_true, if_false]
        rcases hp : env.parsed with emsg | linksOpt
        · simp [countExtractor]
        · cases hok : env.response.ok
          · simp [countExtractor]
          · rcases linksOpt with _ | links
            · simp [countExtractor]
            · cases hl : links.isEmpty <;> simp [countExtractor, hl]
      · simp [hme, countExtractor]

/-- C4: when the message text contains no 32-character lowercase hex
substring and the credential is configured, the download handler invokes
the extractor exactly once; if the extractor result lacks a (truthy) `md5`
field, the run fails with the identifier-not-found error, surfaced as the
apology callback, and issues zero network calls. -/
theorem no_hash_extractor_exactly_once (env : DownloadEnv) (text : String)
    (hc : ¬ containsHex32 text) (hk : truthy env.apiKey = true) :
    countExtractor (downloadHandler env text) = 1 ∧
    (md5Of env.extraction = none →
      downloadHandler env text =
        [Effect.extractorCall "DOWNLOAD_TEMPLATE",
         Effect.logError ("Library download error: " ++
           "Could not find the MD5 hash for the requested book"),
         Effect.callback ("Sorry, I\x27m having trouble getting the download links: " ++
           "Could not find the MD5 hash for the requested book")] ∧
      countFetch (downloadHandler env text) = 0) := by
  have hf : findHash32 text = none := findHash32_eq_none_of_not_contains text hc
  refine ⟨downloadHandler_extractor_once env text hk hf, ?_⟩
  intro hmd
  have htr : downloadHandler env text =
      [Effect.extractorCall "DOWNLOAD_TEMPLATE",
       Effect.logError ("Library download error: " ++
         "Could not find the MD5 hash for the requested book"),
       Effect.callback ("Sorry, I\x27m having trouble getting the download links: " ++
         "Could not find the MD5 hash for the requested book")] := by
    unfold downloadHandler downloadTryBody
    rw [hk, hf]
    simp only [if_true]
    rcases he : env.extraction with _ | c
    · rfl
    · rw [he] at hmd
      unfold md5Of at hmd
      rcases hm : c.md5 with _ | m
      · simp [hm]
      · simp only [hm] at hmd
        cases hme : (m == "") with
        | true => simp [hm, hme]
        | false => rw [hme] at hmd; simp at hmd
  exact ⟨htr, by simp [htr, countFetch]⟩

theorem no_hash_extractor_exactly_once_witness :
    ¬ containsHex32 "download the bostrom book" ∧
    countExtractor (downloadHandler
      ⟨some "key", none, ⟨true, 200, "b"⟩, Except.ok (some ["http://a"]), "x"⟩
      "download the bostrom book") = 1 :=
  have hc : ¬ containsHex32 "download the bostrom book" := by
    intro h
    have := findHash32_isSome_of_contains _ h
    rcases this with ⟨hstr, hf⟩
    have : findHash32 "download the bostrom book" = none := by decide
    rw [this] at hf
    exact Option.noConfusion hf
  ⟨hc, (no_hash_extractor_exactly_once
    ⟨some "key", none, ⟨true, 200, "b"⟩, Except.ok (some ["http://a"]), "x"⟩
    "download the bostrom book" hc (by decide)).1⟩

/-- C5: for both endpoints, when the response body fails to parse as JSON
the handler logs the raw body, throws the parse error, and performs no
further processing of the response: the full trace, valid for every HTTP
status including non-success, ends in the parse-error apology and never
reaches the status check, result rendering or empty-result handling. -/
theorem parse_failure_stops_processing
    (senv : SearchEnv) (stext term emsg : String)
    (denv : DownloadEnv) (dtext hstr demsg : String)
    (hk : truthy senv.apiKey = true)
    (ht : searchTermOf senv.extraction = some term)
    (hp : senv.parsed = Except.error emsg)
    (hk2 : truthy denv.apiKey = true)
    (hh : findHash32 dtext = some hstr)
    (hp2 : denv.parsed = Except.error demsg) :
    searchHandler senv stext =
      [Effect.extractorCall "SEARCH_TEMPLATE",
       Effect.logMsg ("Searching for: " ++ term),
       Effect.logMsg ("Search URL: " ++ searchUrl term),
       Effect.fetchGet (searchUrl term),
       Effect.logError ("Failed to parse response: " ++ senv.response.bodyText),
       Effect.logError ("Library search error: " ++ ("Failed to parse API response: " ++ emsg)),
       Effect.callback ("Sorry, I\x27m having trouble with the search: " ++
         ("Failed to parse API response: " ++ emsg))] ∧
    downloadHandler denv dtext =
      [Effect.fetchGet (downloadUrl hstr),
       Effect.logError ("Failed to parse response: " ++ denv.response.bodyText),
       Effect.logError ("Library download error: " ++ ("Failed to parse API response: " ++ demsg)),
       Effect.callback ("Sorry, I\x27m having trouble getting the download links: " ++
         ("Failed to parse API response: " ++ demsg))] := by
  constructor
  · unfold searchHandler searchTryBody
    rw [hk, ht, hp]
    simp
  · unfold downloadHandler downloadTryBody
    rw [hk2, hh, hp2]
    simp

theorem parse_failure_stops_processing_witness :
    (⟨false, 500, "not json"⟩ : HttpResponse).ok = false ∧
    searchHandler ⟨some "key", some ⟨some "superintelligence"⟩,
        ⟨false, 500, "not json"⟩, Except.error "Unexpected token", "x"⟩ "hi" =
      [Effect.extractorCall "SEARCH_TEMPLATE",
       Effect.logMsg ("Searching for: " ++ "superintelligence"),
       Effect.logMsg ("Search URL: " ++ searchUrl "superintelligence"),
       Effect.fetchGet (searchUrl "superintelligence"),
       Effect.logError ("Failed to parse response: " ++ "not json"),
       Effect.logError ("Library search error: " ++
         ("Failed to parse API response: " ++ "Unexpected token")),
       Effect.callback ("Sorry, I\x27m having trouble with the search: " ++
         ("Failed to parse API response: " ++ "Unexpected token"))] :=
  ⟨rfl,
   (parse_failure_stops_processing
      ⟨some "key", some ⟨some "superintelligence"⟩,
        ⟨false, 500, "not json"⟩, Except.error "Unexpected token", "x"⟩
      "hi" "superintelligence" "Unexpected token"
      ⟨some "key", none, ⟨false, 500, "oops"⟩, Except.error "bad", "x"⟩
      "5b723c172fc4c8a77f476e7016ad3945" "5b723c172fc4c8a77f476e7016ad3945" "bad"
      (by decide) (by decide) rfl (by decide) (by decide) rfl).1⟩

/-- C6: for every well-formed search response with a non-empty book list,
the success callback carries `renderSearchResults`, whose output contains
exactly `books.length` entries (the map over the books, in service order)
and is prefixed by the line reporting the true `total` and the book
count. -/
theorem search_success_rendering (env : SearchEnv) (text term : String)
    (data : AnnaArchiveResponse) (bs : List AnnaArchiveBook)
    (hk : truthy env.apiKey = true)
    (ht : searchTermOf env.extraction = some term)
    (hp : env.parsed = Except.ok data)
    (hok : env.response.ok = true)
    (hb : data.books = some bs)
    (hne : bs ≠ []) :
    searchHandler env text =
      [Effect.extractorCall "SEARCH_TEMPLATE",
       Effect.logMsg ("Searching for: " ++ term),
       Effect.logMsg ("Search URL: " ++ searchUrl term),
       Effect.fetchGet (searchUrl term),
       Effect.logMsg "Search results",
       Effect.callback (renderSearchResults data.total bs)] ∧
    (∃ rest, renderSearchResults data.total bs =
       ("Found " ++ toString data.total ++ " books. Here are the top " ++
        toString bs.length ++ " results:") ++ rest) ∧
    (bs.map renderBook).length = bs.length ∧
    (∀ i : Fin bs.length,
       (bs.map renderBook).get (Fin.cast (List.length_map bs renderBook).symm i) =
         renderBook (bs.get i)) := by
  have hemp : bs.isEmpty = false := by
    cases bs with
    | nil => exact absurd rfl hne
    | cons b bs' => rfl
  refine ⟨?_, ?_, List.length_map bs renderBook, ?_⟩
  · unfold searchHandler searchTryBody
    rw [hk, ht, hp, hok]
    simp [hb, hemp]
  · refine ⟨"\n\n" ++ (String.intercalate "\n\n" (bs.map renderBook) ++
      "\n\nTo download a book, ask me using its MD5 hash."), ?_⟩
    unfold renderSearchResults
    have hsplit : (" results:\n\n" : String) = " results:" ++ "\n\n" := rfl
    simp only [String.append_assoc]
    rw [hsplit, String.append_assoc]
  · intro i
    simp [List.get_eq_getElem, List.getElem_map]

theorem search_success_rendering_witness :
    searchHandler
      ⟨some "key", some ⟨some "machine learning"⟩, ⟨true, 200, "body"⟩,
        Except.ok ⟨2, some
          [⟨"A", some "X", "aaaaaaaaaaaaaaaaaaaaaaaaaaaaaaaa", "1MB", none, "pdf", none⟩,
           ⟨"B", some "Y", "bbbbbbbbbbbbbbbbbbbbbbbbbbbbbbbb", "2MB", some "CS", "epub",
             some "2014"⟩]⟩, "x"⟩ "hi" =
      [Effect.extractorCall "SEARCH_TEMPLATE",
       Effect.logMsg ("Searching for: " ++ "machine learning"),
       Effect.logMsg ("Search URL: " ++ searchUrl "machine learning"),
       Effect.fetchGet (searchUrl "machine learning"),
       Effect.logMsg "Search results",
       Effect.callback (renderSearchResults 2
         [⟨"A", some "X", "aaaaaaaaaaaaaaaaaaaaaaaaaaaaaaaa", "1MB", none, "pdf", none⟩,
          ⟨"B", some "Y", "bbbbbbbbbbbbbbbbbbbbbbbbbbbbbbbb", "2MB", some "CS", "epub",
            some "2014"⟩])] :=
  (search_success_rendering
    ⟨some "key", some ⟨some "machine learning"⟩, ⟨true, 200, "body"⟩,
      Except.ok ⟨2, some
        [⟨"A", some "X", "aaaaaaaaaaaaaaaaaaaaaaaaaaaaaaaa", "1MB", none, "pdf", none⟩,
         ⟨"B", some "Y", "bbbbbbbbbbbbbbbbbbbbbbbbbbbbbbbb", "2MB", some "CS", "epub",
           some "2014"⟩]⟩, "x"⟩ "hi" "machine learning"
    ⟨2, some
      [⟨"A", some "X", "aaaaaaaaaaaaaaaaaaaaaaaaaaaaaaaa", "1MB", none, "pdf", none⟩,
       ⟨"B", some "Y", "bbbbbbbbbbbbbbbbbbbbbbbbbbbbbbbb", "2MB", some "CS", "epub",
         some "2014"⟩]⟩
    [⟨"A", some "X", "aaaaaaaaaaaaaaaaaaaaaaaaaaaaaaaa", "1MB", none, "pdf", none⟩,
     ⟨"B", some "Y", "bbbbbbbbbbbbbbbbbbbbbbbbbbbbbbbb", "2MB", some "CS", "epub",
       some "2014"⟩]
    (by decide) (by decide) rfl rfl rfl (by simp)).1

/-- C7: a search response with an empty or missing `books` array is not an
error: the handler delivers the fixed no-results message via the callback
and returns normally (no thrown error, no book entries rendered). -/
theorem search_empty_renders_no_results (env : SearchEnv) (text term : String)
    (data : AnnaArchiveResponse)
    (hk : truthy env.apiKey = true)
    (ht : searchTermOf env.extraction = some term)
    (hp : env.parsed = Except.ok data)
    (hok : env.response.ok = true)
    (hb : data.books = none ∨ data.books = some []) :
    searchHandler env text =
      [Effect.extractorCall "SEARCH_TEMPLATE",
       Effect.logMsg ("Searching for: " ++ term),
       Effect.logMsg ("Search URL: " ++ searchUrl term),
       Effect.fetchGet (searchUrl term),
       Effect.logMsg "Search results",
       Effect.callback noResultsText] ∧
    (searchTryBody env text).2 = none := by
  constructor
  · unfold searchHandler searchTryBody
    rw [hk, ht, hp, hok]
    rcases hb with hb | hb <;> simp [hb]
  · unfold searchTryBody
    rw [hk, ht, hp, hok]
    rcases hb with hb | hb <;> simp [hb]

theorem search_empty_renders_no_results_witness :
    searchHandler ⟨some "key", some ⟨some "harry potter"⟩, ⟨true, 200, "body"⟩,
        Except.ok ⟨0, some []⟩, "x"⟩ "hi" =
      [Effect.extractorCall "SEARCH_TEMPLATE",
       Effect.logMsg ("Searching for: " ++ "harry potter"),
       Effect.logMsg ("Search URL: " ++ searchUrl "harry potter"),
       Effect.fetchGet (searchUrl "harry potter"),
       Effect.logMsg "Search results",
       Effect.callback noResultsText] :=
  (search_empty_renders_no_results
    ⟨some "key", some ⟨some "harry potter"⟩, ⟨true, 200, "body"⟩,
      Except.ok ⟨0, some []⟩, "x"⟩ "hi" "harry potter" ⟨0, some []⟩
    (by decide) (by decide) rfl rfl (Or.inr rfl)).1

/-- C8: a non-empty download-link list is rendered as a list numbered
1..N in exactly the order the service returned: the i-th entry of the
rendered list is `(i+1). link_i`, and `["http://a", "http://b"]` renders
as `1. http://a\n2. http://b`. -/
theorem download_links_numbered (env : DownloadEnv) (text hstr : String)
    (links : List String)
    (hk : truthy env.apiKey = true)
    (hh : findHash32 text = some hstr)
    (hp : env.parsed = Except.ok (some links))
    (hok : env.response.ok = true)
    (hne : links ≠ []) :
    downloadHandler env text =
      [Effect.fetchGet (downloadUrl hstr),
       Effect.callback ("Here are the download links for the book:\n\n" ++
         renderDownloadLinks links)] ∧
    (∀ i : Fin links.length,
       ((links.enum.map fun p => toString (p.1 + 1) ++ ". " ++ p.2).get
          (Fin.cast (by simp) i)) =
         toString (i.1 + 1) ++ ". " ++ links.get i) ∧
    renderDownloadLinks ["http://a", "http://b"] = "1. http://a\n2. http://b" := by
  have hemp : links.isEmpty = false := by
    cases links with
    | nil => exact absurd rfl hne
    | cons l ls => rfl
  refine ⟨?_, ?_, rfl⟩
  · unfold downloadHandler downloadTryBody
    rw [hk, hh, hp, hok]
    simp [hemp]
  · intro i
    simp [List.get_eq_getElem, List.getElem_map, List.getElem_enum]

theorem download_links_numbered_witness :
    downloadHandler
      ⟨some "key", none, ⟨true, 200, "body"⟩, Except.ok (some ["http://a", "http://b"]), "x"⟩
      "Download book with MD5 5b723c172fc4c8a77f476e7016ad3945" =
      [Effect.fetchGet (downloadUrl "5b723c172fc4c8a77f476e7016ad3945"),
       Effect.callback ("Here are the download links for the book:\n\n" ++
         renderDownloadLinks ["http://a", "http://b"])] :=
  (download_links_numbered
    ⟨some "key", none, ⟨true, 200, "body"⟩, Except.ok (some ["http://a", "http://b"]), "x"⟩
    "Download book with MD5 5b723c172fc4c8a77f476e7016ad3945"
    "5b723c172fc4c8a77f476e7016ad3945" ["http://a", "http://b"]
    (by decide) (by decide) rfl rfl (by simp)).1

/-- C9: when the hash is resolved through the extractor (no direct hash in
the text) and the extractor returns an `md5`, the optimistic status
callback `Downloading "<title>" by <author>...` occurs in the trace
strictly before the download network call, for every possible outcome of
that call. -/
theorem optimistic_message_before_fetch (env : DownloadEnv) (text m : String)
    (c : DownloadExtraction)
    (hk : truthy env.apiKey = true)
    (hh : findHash32 text = none)
    (he : env.extraction = some c)
    (hm : c.md5 = some m)
    (hme : (m == "") = false) :
    ∃ rest : List Effect,
      downloadHandler env text =
        Effect.extractorCall "DOWNLOAD_TEMPLATE" ::
        Effect.callback ("Downloading \"" ++ c.title ++ "\" by " ++ c.author ++ "...") ::
        Effect.fetchGet (downloadUrl m) :: rest := by
  unfold downloadHandler downloadTryBody
  rw [hk, hh, he]
  simp only [hm, hme, Bool.false_eq_true, if_false, if_true]
  rcases hp : env.parsed with emsg | linksOpt
  · simp only [List.cons_append, List.nil_append]
    exact ⟨_, rfl⟩
  · cases hok : env.response.ok
    · simp only [Bool.false_eq_true, if_false, List.cons_append, List.nil_append]
      exact ⟨_, rfl⟩
    · rcases linksOpt with _ | links
      · simp only [if_true, List.cons_append, List.nil_append]
        exact ⟨_, rfl⟩
      · cases hl : links.isEmpty
        · simp only [hl, Bool.false_eq_true, if_false, if_true, List.cons_append,
            List.nil_append]
          exact ⟨_, rfl⟩
        · simp only [hl, if_true, List.cons_append, List.nil_append]
          exact ⟨_, rfl⟩

theorem optimistic_message_before_fetch_witness :
    ∃ rest : List Effect,
      downloadHandler
        ⟨some "key",
         some ⟨some "8fd5a47e020c1e95c54bffa00cbf5484", "Superintelligence", "Nick Bostrom"⟩,
         ⟨false, 500, "body"⟩, Except.error "bad", "x"⟩
        "download the bostrom book" =
        Effect.extractorCall "DOWNLOAD_TEMPLATE" ::
        Effect.callback ("Downloading \"" ++ "Superintelligence" ++ "\" by " ++
          "Nick Bostrom" ++ "...") ::
        Effect.fetchGet (downloadUrl "8fd5a47e020c1e95c54bffa00cbf5484") :: rest := by
  have h := optimistic_message_before_fetch
    ⟨some "key",
     some ⟨some "8fd5a47e020c1e95c54bffa00cbf5484", "Superintelligence", "Nick Bostrom"⟩,
     ⟨false, 500, "body"⟩, Except.error "bad", "x"⟩
    "download the bostrom book" "8fd5a47e020c1e95c54bffa00cbf5484"
    ⟨some "8fd5a47e020c1e95c54bffa00cbf5484", "Superintelligence", "Nick Bostrom"⟩
    (by decide) (by decide) rfl rfl (by decide)
  simpa using h

/-- C10: the content hash is extracted with the unanchored pattern
`[a-f0-9]{32}`: any successful match is a 32-character all-lowercase-hex
substring occurring at the leftmost possible position (hence the first 32
characters of a longer hex run, as the 64-character example shows), and a
hash containing uppercase hex digits never matches the direct path. -/
theorem hash_regex_first_match :
    (∀ s hstr : String, findHash32 s = some hstr →
       hstr.data.length = 32 ∧ hstr.data.all isHexLower = true ∧
       ∃ p suf : List Char, s.data = p ++ hstr.data ++ suf ∧
         ∀ p' m' s' : List Char, s.data = p' ++ m' ++ s' → m'.length = 32 →
           m'.all isHexLower = true → p.length ≤ p'.length) ∧
    findHash32 "0123456789abcdef0123456789abcdef0123456789abcdef0123456789abcdef" =
      some "0123456789abcdef0123456789abcdef" ∧
    findHash32 "5B723C172FC4C8A77F476E7016AD3945" = none ∧
    (∀ c : Char, 'A' ≤ c → c ≤ 'F' → isHexLower c = false) := by
  refine ⟨findHash32_sound, by decide, by decide, ?_⟩
  intro c h1 h2
  have ha : ¬ ('a' ≤ c) := not_le.mpr (lt_of_le_of_lt h2 (by decide))
  have h9 : ¬ (c ≤ '9') := not_le.mpr (lt_of_lt_of_le (by decide) h1)
  simp [isHexLower, ha, h9]

theorem hash_regex_first_match_witness :
    findHash32 "the hash 5b723c172fc4c8a77f476e7016ad3945 here" =
      some "5b723c172fc4c8a77f476e7016ad3945" ∧
    ("5b723c172fc4c8a77f476e7016ad3945" : String).data.length = 32 ∧
    'A' ≤ 'B' ∧ ('B' : Char) ≤ 'F' ∧ isHexLower 'B' = false :=
  ⟨by decide, (hash_regex_first_match.1 "the hash 5b723c172fc4c8a77f476e7016ad3945 here"
      "5b723c172fc4c8a77f476e7016ad3945" (by decide)).1,
   by decide, by decide, hash_regex_first_match.2.2.2 'B' (by decide) (by decide)⟩
